import Mathlib

/-
Verification development for the p4z3 symbolic execution engine
(src/p4z3/expressions.py).  The z3 term language is embedded as an
inductive `Formula`; the dynamic Python value union that flows through
`resolve_expr` and the evaluation methods is embedded as `Val`.  Stateful
evaluation methods are embedded as explicit state-passing functions over
`P4State`; a fuel parameter makes the continuation-draining recursion of
`step` structurally terminating.  Machine integers are modelled as
`Int`/`Nat` with explicit `% 2 ^ w` where z3 wraps bit-vector constants.
Fallible code paths (z3 sort mismatches, unresolved references, Python
type errors) return `Except String`.
-/

namespace P4Z3

/-- Sort of an embedded z3 term: bit-vector of a width, boolean, integer,
or the algebraic-datatype sort of a whole program state
(`p4_state.get_z3_repr()`). -/
inductive ZSort
  | bvS (w : Nat)
  | boolS
  | intS
  | stateS
deriving Repr, DecidableEq

mutual

/-- Embedded z3 AST.  `bvv` is `z3.BitVecVal`, `boolv` is `z3.BoolVal`,
`intv` is `z3.IntVal`, `var` is `z3.Const`, and the remaining
constructors are the z3 operations the engine source applies
(`z3.If`, `==`, `z3.And`, `z3.Or`, `z3.Not`, `z3.Extract`, `z3.ZeroExt`,
`z3.Concat`).  `stateRepr` stands for the datatype value
`p4_state.get_z3_repr()` returns, carrying the variable store it was
built from. -/
inductive Formula
  | bvv (w : Nat) (v : Nat)
  | boolv (b : Bool)
  | intv (i : Int)
  | var (name : String) (s : ZSort)
  | ite (c t e : Formula)
  | eqf (a b : Formula)
  | andf (a b : Formula)
  | orf (a b : Formula)
  | notf (a : Formula)
  | extract (h l : Nat) (a : Formula)
  | zeroExt (n : Nat) (a : Formula)
  | concat (a b : Formula)
  | stateRepr (vars : List (String × Val))

/-- Embedded dynamic Python value as seen by `resolve_expr`: a z3 term
(`z3.AstRef`), a machine integer (Python `int`), a list, or a dict.
(Complex `P4ComplexType` values are outside the fragment modelled
here.) -/
inductive Val
  | term (f : Formula)
  | pyint (i : Int)
  | listV (xs : List Val)
  | dictV (xs : List (String × Val))

end

/-- Sort of an embedded term, mirroring what z3 reports via
`.sort()` / `.size()`.  On an `ite` z3 uses the sort of the branches. -/
def Formula.sort : Formula → ZSort
  | .bvv w _ => .bvS w
  | .boolv _ => .boolS
  | .intv _ => .intS
  | .var _ s => s
  | .ite _ t _ => t.sort
  | .eqf _ _ => .boolS
  | .andf _ _ => .boolS
  | .orf _ _ => .boolS
  | .notf _ => .boolS
  | .extract h l _ => .bvS (h - l + 1)
  | .zeroExt n a =>
      match a.sort with
      | .bvS w => .bvS (w + n)
      | s => s
  | .concat a b =>
      match a.sort, b.sort with
      | .bvS wa, .bvS wb => .bvS (wa + wb)
      | _, _ => .boolS
  | .stateRepr _ => .stateS

/-- Embedding of `z3.BitVecVal(v, w)`: z3 stores the constant reduced
modulo `2 ^ w` (negative Python ints wrap). -/
def BitVecVal (v : Int) (w : Nat) : Formula :=
  .bvv w (v % ((2 ^ w : Nat) : Int)).toNat

/-- Embedding of `z3.Extract(h, l, f)`: z3 rejects the call unless
`0 ≤ l ≤ h < size(f)` and `f` is a bit-vector. -/
def z3Extract (h l : Nat) (f : Formula) : Except String Formula :=
  match f.sort with
  | .bvS w => if l ≤ h ∧ h < w then .ok (.extract h l f) else .error "Extract: index out of bounds"
  | _ => .error "Extract expects a bit-vector"

mutual

/-- Denotation of a closed bit-vector term: its width and its value
(already reduced modulo `2 ^ width`).  This is the semantic reading of
the z3 terms the engine builds; `none` on open or ill-sorted terms. -/
def bvDenote : Formula → Option (Nat × Nat)
  | .bvv w v => some (w, v % 2 ^ w)
  | .ite c t e =>
      match boolDenote c with
      | some true => bvDenote t
      | some false => bvDenote e
      | none => none
  | .extract h l a =>
      match bvDenote a with
      | some (w, v) =>
          if l ≤ h ∧ h < w then some (h - l + 1, v / 2 ^ l % 2 ^ (h - l + 1)) else none
      | none => none
  | .zeroExt n a =>
      match bvDenote a with
      | some (w, v) => some (w + n, v)
      | none => none
  | .concat a b =>
      match bvDenote a, bvDenote b with
      | some (wa, va), some (wb, vb) => some (wa + wb, va * 2 ^ wb + vb)
      | _, _ => none
  | _ => none

/-- Denotation of a closed boolean term; `none` on open or ill-sorted
terms (z3 equality between bit-vectors of different widths never gets
built, see `z3_cast`, so width agreement is required here). -/
def boolDenote : Formula → Option Bool
  | .boolv b => some b
  | .notf a =>
      match boolDenote a with
      | some b => some (!b)
      | none => none
  | .andf a b =>
      match boolDenote a, boolDenote b with
      | some x, some y => some (x && y)
      | _, _ => none
  | .orf a b =>
      match boolDenote a, boolDenote b with
      | some x, some y => some (x || y)
      | _, _ => none
  | .ite c t e =>
      match boolDenote c with
      | some true => boolDenote t
      | some false => boolDenote e
      | none => none
  | .eqf a b =>
      match bvDenote a, bvDenote b with
      | some (wa, va), some (wb, vb) => if wa = wb then some (decide (va = vb)) else none
      | _, _ =>
          match boolDenote a, boolDenote b with
          | some x, some y => some (decide (x = y))
          | _, _ => none
  | _ => none

end

/-- Target of `z3_cast`: either a boolean sort (`z3.BoolSortRef`) or a
bit-vector width (a `z3.BitVecSortRef`, read through `.size()`, or a
plain Python int — the source collapses both to `to_type_size`). -/
inductive CastTarget
  | boolT
  | widthT (w : Nat)
deriving Repr, DecidableEq

/-- Embedding of `z3_cast` (src/p4z3/expressions.py lines 98-127).
Boolean inputs are first rewritten to the 1-bit vector
`z3.If(val, BitVecVal(1,1), BitVecVal(0,1))`.  Casting to bool returns
`val == z3.BitVecVal(1, 1)`; z3 rejects that equality unless `val` is a
1-bit vector (a Python int coerces to width 1).  Otherwise a Python int
materializes as `BitVecVal(val, size)`, a narrower vector is
zero-extended and a wider one truncated via `Extract(size-1, 0, val)`;
z3 rejects a requested width of 0 (the source would pass `-1` to
`Extract` / `0` to `BitVecVal`). -/
def z3_cast (val0 : Val) (to_type : CastTarget) : Except String Formula :=
  let val : Val :=
    match val0 with
    | .term f => if f.sort = .boolS then .term (.ite f (.bvv 1 1) (.bvv 1 0)) else .term f
    | v => v
  match to_type with
  | .boolT =>
      match val with
      | .term f =>
          match f.sort with
          | .bvS 1 => .ok (.eqf f (.bvv 1 1))
          | _ => .error "sort mismatch"
      | .pyint i => .ok (.eqf (BitVecVal i 1) (.bvv 1 1))
      | _ => .error "sort mismatch"
  | .widthT t =>
      match val with
      | .pyint i => if t = 0 then .error "invalid bit-vector size" else .ok (BitVecVal i t)
      | .term f =>
          match f.sort with
          | .bvS w =>
              if w < t then .ok (.zeroExt (t - w) f)
              else if t = 0 then .error "Extract: index out of bounds"
              else .ok (.extract (t - 1) 0 f)
          | _ => .error "size attribute missing"
      | _ => .error "size attribute missing"

/-- Left fold of `z3.Concat(*assemble)`: z3 applies its binary concat
left-associatively and needs at least two arguments. -/
def concatFold (a : Formula) : List Formula → Formula
  | [] => a
  | x :: xs => concatFold (.concat a x) xs

/-- Embedding of `z3.Concat(*args)`. -/
def z3Concat (fs : List Formula) : Except String Formula :=
  match fs with
  | a :: b :: rest => .ok (concatFold (.concat a b) rest)
  | _ => .error "Concat needs at least two arguments"

/-- Embedding of `slice_assign` (src/p4z3/expressions.py lines 130-148).
An integer container is first materialized as a 64-bit constant.  When
the slice spans the full width the replacement is returned unchanged;
otherwise the result is the concatenation of the untouched high chunk
(when `slice_l` is below the top bit), the replacement cast to exactly
`slice_l + 1 - slice_r` bits, and the untouched low chunk (when
`slice_r > 0`). -/
def slice_assign (lval0 rval : Val) (slice_l slice_r : Nat) : Except String Val :=
  let lval : Val :=
    match lval0 with
    | .pyint i => .term (BitVecVal i 64)
    | v => v
  match lval with
  | .term lf =>
      match lf.sort with
      | .bvS w =>
          let lval_max := w - 1
          if slice_l = lval_max ∧ slice_r = 0 then .ok rval
          else
            let assemble1 : List Formula :=
              if slice_l < lval_max then [.extract lval_max (slice_l + 1) lf] else []
            match z3_cast rval (.widthT (slice_l + 1 - slice_r)) with
            | .error e => .error e
            | .ok rc =>
                let assemble2 := assemble1 ++ [rc] ++
                  (if slice_r > 0 then [.extract (slice_r - 1) 0 lf] else [])
                match z3Concat assemble2 with
                | .ok f => .ok (.term f)
                | .error e => .error e
      | _ => .error "size attribute missing"
  | _ => .error "size attribute missing"

/-- Embedding of the body of `P4Slice.eval` after its operand has been
resolved (src/p4z3/expressions.py lines 432-436): an integer operand is
materialized as a 64-bit constant, then `z3.Extract(slice_l, slice_r, -)`
is applied. -/
def p4Slice_eval_val (val0 : Val) (slice_l slice_r : Nat) : Except String Formula :=
  let val_expr : Val :=
    match val0 with
    | .pyint i => .term (BitVecVal i 64)
    | v => v
  match val_expr with
  | .term f => z3Extract slice_l slice_r f
  | _ => .error "Extract expects a bit-vector"

mutual

/-- Statement nodes of the engine fragment the claims exercise:
`AssignmentStatement`, `BlockStatement`, `IfStatement` (whose three
sub-nodes are optional exactly as in the Python constructor, which
initializes them to `None`), and `MethodCallStmt`. -/
inductive Stmt
  | assign (lval : String) (rval : PExpr)
  | blockS (stmts : List Stmt)
  | ifStmt (cond : Option PExpr) (then_block : Option Stmt) (else_block : Option Stmt)
  | methodCallStmt (method_expr : PExpr)

/-- Expression-position values of the fragment: a string reference, an
already-concrete value, the short-circuiting `P4land` / `P4lor` nodes,
and `MethodCallExpr` with a callee name and positional arguments. -/
inductive PExpr
  | ref (name : String)
  | lit (v : Val)
  | land (lval : PExpr) (rval : PExpr)
  | lor (lval : PExpr) (rval : PExpr)
  | methodCall (p4_method : String) (args : List PExpr)

end

/-- P4Callable/P4Action node data: the ordered parameter mapping
`name ↦ (direction, sort)` kept as an ordered list, the body block, and
the diagnostic call counter (`self.call_counter`). -/
structure ActionDef where
  params : List (String × String × ZSort)
  block : List Stmt
  call_counter : Nat

/-- Embedding of `P4Callable.eval`'s first line `self.call_counter += 1`:
the node object itself is mutated on every invocation. -/
def bump_call_counter (a : ActionDef) : ActionDef :=
  { a with call_counter := a.call_counter + 1 }

/-- Node queued on the continuation list: a statement, or a `P4Context`
restoration step carrying its `var_buffer` (parameter name ↦ direction
and the buffered argument).  The `P4Context` of the `P4Action` call path
is built with `p4_state=None`, which is the form modelled here; the
control path additionally swaps in a saved caller state first. -/
inductive ChainNode
  | stmt (s : Stmt)
  | ctx (var_buffer : List (String × String × PExpr))

/-- Modelled from the spec: the Program State of section 3 — p4z3/base.py
(class P4State) is not under src/.  It owns (a) the mapping from variable
name to current symbolic value, (b) the continuation list of
not-yet-evaluated nodes consumed front-to-back, and (c) a reference to
the global callable registry used to resolve bare-name references. -/
structure P4State where
  vars : List (String × Val)
  expr_chain : List ChainNode
  registry : List (String × ActionDef)

/-- Lookup by exact name in an association list (first match wins). -/
def lookupVarList {α : Type} : List (String × α) → String → Option α
  | [], _ => none
  | (m, v) :: rest, n => if m = n then some v else lookupVarList rest n

/-- Overwrite-or-insert in an association list, keeping positions. -/
def setVarList {α : Type} : List (String × α) → String → α → List (String × α)
  | [], n, v => [(n, v)]
  | (m, w) :: rest, n, v => if m = n then (n, v) :: rest else (m, w) :: setVarList rest n v

/-- Remove a binding from an association list. -/
def delVarList {α : Type} : List (String × α) → String → List (String × α)
  | [], _ => []
  | (m, w) :: rest, n => if m = n then delVarList rest n else (m, w) :: delVarList rest n

/-- Modelled from the spec: `p4_state.resolve_reference(name)` of the
missing p4z3/base.py — lookup by exact name, `None` when absent. -/
def resolve_reference (st : P4State) (name : String) : Option Val :=
  lookupVarList st.vars name

/-- Modelled from the spec: `p4_state.set_or_add_var(name, value)` of the
missing p4z3/base.py — overwrite-or-insert. -/
def set_or_add_var (st : P4State) (name : String) (v : Val) : P4State :=
  { st with vars := setVarList st.vars name v }

/-- Modelled from the spec: `p4_state.del_var(name)` of the missing
p4z3/base.py — remove the binding entirely. -/
def del_var (st : P4State) (name : String) : P4State :=
  { st with vars := delVarList st.vars name }

/-- Modelled from the spec: `p4_state.insert_exprs(exprs)` of the missing
p4z3/base.py — push the given nodes onto the front of the continuation
list, in order. -/
def insert_exprs (st : P4State) (nodes : List ChainNode) : P4State :=
  { st with expr_chain := nodes ++ st.expr_chain }

/-- Modelled from the spec: `p4_state.get_z3_repr()` of the missing
p4z3/base.py — the overall formula for the state's output value, a
datatype value determined by the current variable store. -/
def get_z3_repr (st : P4State) : Formula :=
  .stateRepr st.vars

/-- Truthiness of the Python guard `lval_expr == False` in `P4land.eval`:
on a z3 term z3's `__eq__` plus `__bool__` reduce to a structural
identity check against the `False` constant, and on a Python int the
comparison `0 == False` is `True`. -/
def isStructFalse : Val → Bool
  | .term (.boolv false) => true
  | .pyint 0 => true
  | _ => false

/-- Truthiness of the Python guard `lval_expr == True` in `P4lor.eval`,
mirroring `isStructFalse`. -/
def isStructTrue : Val → Bool
  | .term (.boolv true) => true
  | .pyint 1 => true
  | _ => false

/-- Embedding of `align_bitvecs` (src/p4z3/expressions.py lines 89-95):
when both operands are bit-vector terms the narrower one is cast (via
`P4Cast.eval`, i.e. `z3_cast`) to the width of the wider; any other
operand pair is returned unchanged. -/
def align_bitvecs (bitvec1 bitvec2 : Val) : Except String (Val × Val) :=
  match bitvec1, bitvec2 with
  | .term f1, .term f2 =>
      match f1.sort, f2.sort with
      | .bvS w1, .bvS w2 =>
          if w1 < w2 then
            match z3_cast (.term f1) (.widthT w2) with
            | .ok g => .ok (.term g, .term f2)
            | .error e => .error e
          else if w2 < w1 then
            match z3_cast (.term f2) (.widthT w1) with
            | .ok g => .ok (.term f1, .term g)
            | .error e => .error e
          else .ok (.term f1, .term f2)
      | _, _ => .ok (.term f1, .term f2)
  | _, _ => .ok (bitvec1, bitvec2)

/-- Embedding of `z3.And(a, b)` as applied by `P4land`: z3 requires both
arguments to be boolean expressions. -/
def z3And (a b : Val) : Except String Formula :=
  match a, b with
  | .term fa, .term fb =>
      if fa.sort = .boolS ∧ fb.sort = .boolS then .ok (.andf fa fb)
      else .error "And expects boolean arguments"
  | _, _ => .error "And expects boolean arguments"

/-- Embedding of `z3.Or(a, b)` as applied by `P4lor`. -/
def z3Or (a b : Val) : Except String Formula :=
  match a, b with
  | .term fa, .term fb =>
      if fa.sort = .boolS ∧ fb.sort = .boolS then .ok (.orf fa fb)
      else .error "Or expects boolean arguments"
  | _, _ => .error "Or expects boolean arguments"

/-- Embedding of `z3.If(cond, t, e)`: the condition must be boolean and
the two branches must share a sort, else z3 raises. -/
def z3If (cond : Val) (t e : Formula) : Except String Formula :=
  match cond with
  | .term c =>
      if c.sort = .boolS then
        if t.sort = e.sort then .ok (.ite c t e) else .error "If branch sort mismatch"
      else .error "If condition must be boolean"
  | _ => .error "If condition must be boolean"

/-- Embedding of `P4Callable.merge_parameters` restricted to positional
arguments (no keyword arguments appear in the fragment the claims
exercise): argument `i` binds to declared parameter `i`, keeping the
declared direction tag; parameters beyond the argument list are not
bound. -/
def merge_parameters : List (String × String × ZSort) → List PExpr →
    List (String × String × PExpr)
  | _, [] => []
  | [], _ => []
  | (param_name, is_ref, _) :: ps, a :: rest => (param_name, is_ref, a) :: merge_parameters ps rest

/-- Embedding of `P4Callable.save_variables` (src/p4z3/expressions.py
lines 631-636): despite its name and its comment ("save all the
variables that may be overridden"), it copies the merged parameter
tuples — direction and the caller's argument — into the buffer; it never
reads the pre-call values of the parameter names from the state. -/
def save_variables (merged_params : List (String × String × PExpr)) :
    List (String × String × PExpr) :=
  merged_params

mutual

/-- Modelled from the spec: `step` of the missing p4z3/base.py (section
4.3) — with an empty continuation list, terminate and return the current
overall formula for the state; otherwise pop the next node and evaluate
it.  A fuel argument makes the chain-draining recursion structural; the
final state is returned explicitly (Python mutates the caller's state
object in place). -/
def step : Nat → P4State → Except String (Formula × P4State)
  | 0, _ => .error "out of fuel"
  | fuel + 1, st =>
      match st.expr_chain with
      | [] => .ok (get_z3_repr st, st)
      | n :: rest => evalChainNode fuel n { st with expr_chain := rest }
  termination_by structural fuel _ => fuel

/-- Dispatch of a popped continuation node to its `eval`. -/
def evalChainNode : Nat → ChainNode → P4State → Except String (Formula × P4State)
  | 0, _, _ => .error "out of fuel"
  | fuel + 1, .stmt s, st => evalStmt fuel s st
  | fuel + 1, .ctx var_buffer, st => ctxEval fuel var_buffer st
  termination_by structural fuel _ _ => fuel

/-- Embedding of `P4Context.eval` (src/p4z3/expressions.py lines
566-600) in its `P4Action` form (`self.p4_state is None`, so
`p4_state = p4_context`).  Each buffered entry is processed in order:
for `inout`/`out` the callee-scope value of the parameter name is copied
onto the caller-side target (the slice-target sub-case does not arise in
this fragment, whose lvalues are plain names); for `in` the code reads
the CURRENT value of the parameter name from the state and writes it
back — a no-op, not a restoration.  The delete-marker branch
(`param_val is None`) cannot arise because `save_variables` buffers the
argument expressions themselves.  Afterwards evaluation proceeds with
`step`. -/
def ctxEval : Nat → List (String × String × PExpr) → P4State →
    Except String (Formula × P4State)
  | 0, _, _ => .error "out of fuel"
  | fuel + 1, [], st => step fuel st
  | fuel + 1, (param_name, is_ref, param_val) :: rest, st =>
      if is_ref = "inout" ∨ is_ref = "out" then
        match resolve_reference st param_name with
        | none => .error "unresolved reference in copy-out"
        | some v =>
            match param_val with
            | .ref target => ctxEval fuel rest (set_or_add_var st target v)
            | _ => .error "unsupported copy-out lvalue"
      else if is_ref = "in" then
        match resolve_reference st param_name with
        | none => .error "unresolved reference"
        | some v => ctxEval fuel rest (set_or_add_var st param_name v)
      else ctxEval fuel rest st
  termination_by structural fuel _ _ => fuel

/-- Statement evaluation (`eval(self, p4_state)` of the statement
nodes).  `AssignmentStatement` resolves the right-hand side, stores it,
and steps; `BlockStatement` pushes its statements onto the front of the
continuation and steps; `IfStatement` is src/p4z3/expressions.py lines
988-1000: it resolves the condition (failing when unset), evaluates the
then block against a deep copy of the state — states are values here, so
the copy is the value itself and the then branch's final state is
discarded exactly as the Python copy is dropped — then either evaluates
the else block against the original state and combines with `z3.If`, or
falls through via `z3_implies`; `MethodCallStmt` evaluates its call and
steps when a continuation remains. -/
def evalStmt : Nat → Stmt → P4State → Except String (Formula × P4State)
  | 0, _, _ => .error "out of fuel"
  | fuel + 1, .assign lval rval, st =>
      match resolveExpr fuel st rval with
      | .error e => .error e
      | .ok (rval_expr, st1) => step fuel (set_or_add_var st1 lval rval_expr)
  | fuel + 1, .blockS stmts, st =>
      step fuel (insert_exprs st (stmts.map ChainNode.stmt))
  | fuel + 1, .ifStmt cond then_block else_block, st =>
      match cond with
      | none => .error "Missing condition!"
      | some c =>
          match resolveExpr fuel st c with
          | .error e => .error e
          | .ok (condv, st1) =>
              match then_block with
              | none => .error "AttributeError: then block is missing"
              | some tstmt =>
                  match evalStmt fuel tstmt st1 with
                  | .error e => .error e
                  | .ok (then_expr, _) =>
                      match else_block with
                      | some estmt =>
                          match evalStmt fuel estmt st1 with
                          | .error e => .error e
                          | .ok (else_expr, st2) =>
                              match z3If condv then_expr else_expr with
                              | .ok f => .ok (f, st2)
                              | .error e => .error e
                      | none => z3_implies fuel st1 condv then_expr
  | fuel + 1, .methodCallStmt method_expr, st =>
      match evalPExpr fuel method_expr st with
      | .error e => .error e
      | .ok (v, st1) =>
          match st1.expr_chain with
          | _ :: _ => step fuel st1
          | [] =>
              match v with
              | .term f => .ok (f, st1)
              | _ => .error "MethodCallStmt result is not a term"
  termination_by structural fuel _ _ => fuel

/-- Embedding of `z3_implies` (src/p4z3/expressions.py lines 77-80): the
no-match continuation is obtained by stepping the given (original,
unbranched) state, and the result is `z3.If(cond, then_expr, no_match)`. -/
def z3_implies : Nat → P4State → Val → Formula → Except String (Formula × P4State)
  | 0, _, _, _ => .error "out of fuel"
  | fuel + 1, st, cond, then_expr =>
      match step fuel st with
      | .error e => .error e
      | .ok (no_match, st2) =>
          match z3If cond then_expr no_match with
          | .ok f => .ok (f, st2)
          | .error e => .error e
  termination_by structural fuel _ _ _ => fuel

/-- Expression-node evaluation.  `P4land.eval` (lines 325-336) returns
the constant false immediately when its resolved left operand is
structurally the false constant, without touching the right operand;
otherwise it resolves the right operand, width-aligns, and applies
`z3.And`.  `P4lor.eval` (lines 344-356) mirrors this for constant true
and `z3.Or`.  `MethodCallExpr.eval` resolves its callee name through the
state's callable registry and invokes it; the `P4Callable.eval` entry
bumps the node's call counter (the registry entry is updated with the
mutated node), merges parameters, buffers them, and runs
`P4Action.eval_callable`.  Plain references and values have no `eval`
method in Python. -/
def evalPExpr : Nat → PExpr → P4State → Except String (Val × P4State)
  | 0, _, _ => .error "out of fuel"
  | _ + 1, .ref _, _ => .error "AttributeError: eval on a non-node"
  | _ + 1, .lit _, _ => .error "AttributeError: eval on a non-node"
  | fuel + 1, .land lval rval, st =>
      match resolveExpr fuel st lval with
      | .error e => .error e
      | .ok (lval_expr, st1) =>
          if isStructFalse lval_expr then .ok (.term (.boolv false), st1)
          else
            match resolveExpr fuel st1 rval with
            | .error e => .error e
            | .ok (rval_expr, st2) =>
                match align_bitvecs lval_expr rval_expr with
                | .error e => .error e
                | .ok (a, b) =>
                    match z3And a b with
                    | .ok f => .ok (.term f, st2)
                    | .error e => .error e
  | fuel + 1, .lor lval rval, st =>
      match resolveExpr fuel st lval with
      | .error e => .error e
      | .ok (lval_expr, st1) =>
          if isStructTrue lval_expr then .ok (.term (.boolv true), st1)
          else
            match resolveExpr fuel st1 rval with
            | .error e => .error e
            | .ok (rval_expr, st2) =>
                match align_bitvecs lval_expr rval_expr with
                | .error e => .error e
                | .ok (a, b) =>
                    match z3Or a b with
                    | .ok f => .ok (.term f, st2)
                    | .error e => .error e
  | fuel + 1, .methodCall p4_method args, st =>
      match lookupVarList st.registry p4_method with
      | none => .error "Unsupported method type"
      | some act =>
          let act2 := bump_call_counter act
          let st2 : P4State := { st with registry := setVarList st.registry p4_method act2 }
          let merged := merge_parameters act2.params args
          let var_buffer := save_variables merged
          match eval_callable_action fuel act2 merged var_buffer st2 with
          | .error e => .error e
          | .ok (f, st3) => .ok (.term f, st3)
  termination_by structural fuel _ _ => fuel

/-- Embedding of `P4Action.eval_callable` (src/p4z3/expressions.py
lines 665-694): copy the arguments in, queue the body block followed by
the `P4Context` restoration step, then step. -/
def eval_callable_action : Nat → ActionDef → List (String × String × PExpr) →
    List (String × String × PExpr) → P4State → Except String (Formula × P4State)
  | 0, _, _, _, _ => .error "out of fuel"
  | fuel + 1, act, merged_params, var_buffer, st =>
      match copy_in fuel act.params merged_params st with
      | .error e => .error e
      | .ok st1 =>
          step fuel (insert_exprs st1 [.stmt (.blockS act.block), .ctx var_buffer])
  termination_by structural fuel _ _ _ _ => fuel

/-- The copy-in loop of `P4Action.eval_callable`: for an `out` parameter
the caller-side target (a plain name in this fragment; the slice-lvalue
sub-case does not arise) is bound to a fresh constant
`z3.Const(param_name, param_sort)`; then the argument is resolved and
bound under the parameter name inside the state. -/
def copy_in : Nat → List (String × String × ZSort) →
    List (String × String × PExpr) → P4State → Except String P4State
  | 0, _, _, _ => .error "out of fuel"
  | _ + 1, _, [], st => .ok st
  | fuel + 1, params, (param_name, is_ref, arg) :: rest, st =>
      match lookupVarList params param_name with
      | none => .error "KeyError: unknown parameter"
      | some (_, param_sort) =>
          let stepA : Except String P4State :=
            if is_ref = "out" then
              match arg with
              | .ref arg_name =>
                  .ok (set_or_add_var st arg_name (.term (.var param_name param_sort)))
              | _ => .error "unsupported out lvalue"
            else .ok st
          match stepA with
          | .error e => .error e
          | .ok stA =>
              match resolveExpr fuel stA arg with
              | .error e => .error e
              | .ok (argv, stB) =>
                  copy_in fuel params rest (set_or_add_var stB param_name argv)
  termination_by structural fuel _ _ _ => fuel

/-- Embedding of `resolve_expr` (src/p4z3/expressions.py lines 9-48) on
an expression-position operand: a string reference is looked up in the
state (failing when absent); an unevaluated node is evaluated and its
result resolved again; the value cascade itself (terms, ints,
containers) is `resolveVal`. -/
def resolveExpr : Nat → P4State → PExpr → Except String (Val × P4State)
  | 0, _, _ => .error "out of fuel"
  | fuel + 1, st, .ref name =>
      match resolve_reference st name with
      | none => .error "Value could not be found!"
      | some v =>
          match resolveVal fuel v with
          | .ok v2 => .ok (v2, st)
          | .error e => .error e
  | fuel + 1, st, .lit v =>
      match resolveVal fuel v with
      | .ok v2 => .ok (v2, st)
      | .error e => .error e
  | fuel + 1, st, e =>
      match evalPExpr fuel e st with
      | .error err => .error err
      | .ok (v, st1) =>
          match resolveVal fuel v with
          | .ok v2 => .ok (v2, st1)
          | .error err => .error err
  termination_by structural fuel _ _ => fuel

/-- The value cascade of `resolve_expr` (src/p4z3/expressions.py lines
19-48): z3 terms and machine integers are returned as-is; a list is
rebuilt with each element resolved; for a dict the source initializes
`dict_expr = []` — a LIST — and then executes `dict_expr[name] = ...`,
which raises a TypeError on the first entry (an empty dict falls through
the loop and returns that empty list). -/
def resolveVal : Nat → Val → Except String Val
  | 0, _ => .error "out of fuel"
  | _ + 1, .term f => .ok (.term f)
  | _ + 1, .pyint i => .ok (.pyint i)
  | fuel + 1, .listV xs =>
      match resolveValList fuel xs with
      | .ok ys => .ok (.listV ys)
      | .error e => .error e
  | _ + 1, .dictV [] => .ok (.listV [])
  | _ + 1, .dictV (_ :: _) => .error "TypeError: list indices must be integers"
  termination_by structural fuel _ => fuel

/-- Element-wise resolution of a list value, first failure propagating. -/
def resolveValList : Nat → List Val → Except String (List Val)
  | 0, _ => .error "out of fuel"
  | _ + 1, [] => .ok []
  | fuel + 1, x :: xs =>
      match resolveVal fuel x with
      | .error e => .error e
      | .ok y =>
          match resolveValList fuel xs with
          | .ok ys => .ok (y :: ys)
          | .error e => .error e
  termination_by structural fuel _ => fuel

end

/-- Action expression accepted by `resolve_action`: a `MethodCallExpr`
node or a bare action name (the two forms the source handles; anything
else raises a TypeError at construction). -/
inductive ActionExpr
  | methodCallE (p4_method : String) (args : List PExpr)
  | nameE (s : String)

/-- Embedding of `resolve_action` (src/p4z3/expressions.py lines 51-62):
a method call yields its callee name and arguments, a bare string yields
the name with no arguments. -/
def resolve_action : ActionExpr → String × List PExpr
  | .methodCallE p4_method args => (p4_method, args)
  | .nameE s => (s, [])

/-- P4Table node data: name, ordered match keys, constant entries
(key tuple paired with the resolved action), the ordered action mapping
`name ↦ (id, name, args)` with ids assigned from 1 in declaration order,
the optional default action (id 0), and the action-selector constant
`z3.Int(name + "_action")`. -/
structure P4Table where
  name : String
  keys : List PExpr
  const_entries : List (List PExpr × (String × List PExpr))
  actions : List (String × (Nat × String × List PExpr))
  default_action : Option (Nat × String × List PExpr)
  tbl_action : Formula

/-- Embedding of `P4Table.__init__(name)`. -/
def mkP4Table (name : String) : P4Table :=
  { name := name, keys := [], const_entries := [], actions := [],
    default_action := none, tbl_action := .var (name ++ "_action") .intS }

/-- Embedding of `P4Table.add_action`: the next id is one past the
current number of declared actions. -/
def add_action (t : P4Table) (action_expr : ActionExpr) : P4Table :=
  let (action_name, action_args) := resolve_action action_expr
  let index := t.actions.length + 1
  { t with actions := setVarList t.actions action_name (index, action_name, action_args) }

/-- Embedding of `P4Table.add_default`: the default action gets id 0. -/
def add_default (t : P4Table) (action_expr : ActionExpr) : P4Table :=
  let (action_name, action_args) := resolve_action action_expr
  { t with default_action := some (0, action_name, action_args) }

/-- Embedding of `P4Table.add_match`. -/
def add_match (t : P4Table) (table_key : PExpr) : P4Table :=
  { t with keys := t.keys ++ [table_key] }

/-- Embedding of `P4Table.add_const_entry` (src/p4z3/expressions.py
lines 1108-1113): construction fails when the entry's key-tuple length
disagrees with the table's key-list length; otherwise the resolved
entry is appended. -/
def add_const_entry (t : P4Table) (const_keys : List PExpr) (action_expr : ActionExpr) :
    Except String P4Table :=
  if t.keys.length ≠ const_keys.length then .error "Constant keys must match table keys!"
  else
    let (action_name, action_args) := resolve_action action_expr
    .ok { t with const_entries := t.const_entries ++ [(const_keys, (action_name, action_args))] }

/-- Embedding of the self-mutating prefix of `P4Table.eval_default`
(src/p4z3/expressions.py lines 1154-1161): when no default action was
declared the node REASSIGNS `self.default_action` to the synthesized
`(0, "NoAction", ())`; the function returns the possibly-updated table
together with the `(action_name, args)` pair that the subsequent
`eval_action` call receives (`eval_action` itself only reads the node,
so the node mutation is entirely captured here). -/
def eval_default_self (t : P4Table) : P4Table × (String × List PExpr) :=
  match t.default_action with
  | none =>
      ({ t with default_action := some (0, "NoAction", []) }, ("NoAction", []))
  | some (_, action_name, p4_action_args) => (t, (action_name, p4_action_args))

/-- One switch case: the selector variable `z3.Int(table + "_action")`,
the computed match condition (absent until `eval_switch_matches` runs),
and the case's block. -/
structure SwitchCase where
  match_var : Formula
  match_cond : Option Formula
  case_block : List Stmt

/-- SwitchHit node data: the ordered cases and the default case block. -/
structure SwitchHitNode where
  cases : List (String × SwitchCase)
  default_case : List Stmt

/-- The per-case loop of `SwitchHit.eval_switch_matches`: each case
stores `match_var == table.actions[case_name][0]` into its `match`
slot; a case naming an undeclared action raises a KeyError. -/
def eval_switch_matches_list (actions : List (String × (Nat × String × List PExpr))) :
    List (String × SwitchCase) → Except String (List (String × SwitchCase))
  | [] => .ok []
  | (case_name, case0) :: rest =>
      match lookupVarList actions case_name with
      | none => .error "KeyError: undeclared action"
      | some (idx, _, _) =>
          match eval_switch_matches_list actions rest with
          | .ok cs =>
              .ok ((case_name,
                { case0 with match_cond := some (.eqf case0.match_var (.intv (Int.ofNat idx))) }) :: cs)
          | .error e => .error e

/-- Embedding of `SwitchHit.eval_switch_matches` (src/p4z3/expressions.py
lines 1017-1021): the node REASSIGNS the `match` entry of each of its
own cases to the formula `match_var == action_id`. -/
def eval_switch_matches (sh : SwitchHitNode) (table : P4Table) : Except String SwitchHitNode :=
  match eval_switch_matches_list table.actions sh.cases with
  | .ok cs => .ok { sh with cases := cs }
  | .error e => .error e

/-- Action used by the C2 scenario: one `in`-direction 8-bit parameter
named `p` whose body assigns 99 to `p`. -/
def c2_action : ActionDef :=
  { params := [("p", ("in", .bvS 8))],
    block := [.assign "p" (.lit (.term (.bvv 8 99)))],
    call_counter := 0 }

/-- Entry state of the C2 scenario: caller variable `x` holds 1 and the
caller's own binding for the name `p` holds 7. -/
def c2_state0 : P4State :=
  { vars := [("x", .term (.bvv 8 1)), ("p", .term (.bvv 8 7))],
    expr_chain := [], registry := [("act", c2_action)] }

/-- Variable store left behind by the C2 scenario call. -/
def c2_vars_final : List (String × Val) :=
  [("x", .term (.bvv 8 1)), ("p", .term (.bvv 8 99))]

/-- Final state of the C2 scenario call. -/
def c2_state_final : P4State :=
  { vars := c2_vars_final, expr_chain := [],
    registry := [("act", { c2_action with call_counter := 1 })] }

/-- Table of the C6 counterexample: freshly constructed, no default
action declared. -/
def c6_table0 : P4Table := mkP4Table "t"

/-- Switch node of the C6 witness, with its match slot still unset. -/
def c6_sh0 : SwitchHitNode :=
  ⟨[("a1", ⟨.var "t_action" .intS, none, []⟩)], []⟩

/-- Table of the C6 witness, with one declared action `a1` (id 1). -/
def c6_table1 : P4Table := add_action (mkP4Table "t") (.nameE "a1")

/-- Switch node of the C6 witness after `eval_switch_matches`. -/
def c6_sh1 : SwitchHitNode :=
  ⟨[("a1", ⟨.var "t_action" .intS, some (.eqf (.var "t_action" .intS) (.intv 1)), []⟩)], []⟩

/-- C1: for an `IfStatement` with a set condition, the then block is
evaluated against a deep, fully independent copy of the program state —
with value-semantics states the copy is the entry state itself, and the
then branch's final state is discarded just as the Python deep copy is
dropped — while the else block (first conjunct) or, with no else, the
fallthrough continuation of the original state (second conjunct,
through `z3_implies`/`step`) is evaluated against the SAME entry state
`st1`.  A mutation performed by one branch is therefore never observable
in the other: the conclusion depends only on the shared entry state, for
every variable name and value kind, and the result is an if-then-else
formula keyed on the resolved condition. -/
theorem c1_if_branch_isolation :
    (∀ (fuel : Nat) (c : PExpr) (tstmt estmt : Stmt) (st st1 stT stE : P4State)
       (cf tf ef : Formula),
       resolveExpr fuel st c = .ok (.term cf, st1) →
       cf.sort = .boolS →
       evalStmt fuel tstmt st1 = .ok (tf, stT) →
       evalStmt fuel estmt st1 = .ok (ef, stE) →
       tf.sort = ef.sort →
       evalStmt (fuel + 1) (.ifStmt (some c) (some tstmt) (some estmt)) st =
         .ok (.ite cf tf ef, stE)) ∧
    (∀ (fuel : Nat) (c : PExpr) (tstmt : Stmt) (st st1 stT stE : P4State)
       (cf tf nm : Formula),
       resolveExpr (fuel + 1) st c = .ok (.term cf, st1) →
       cf.sort = .boolS →
       evalStmt (fuel + 1) tstmt st1 = .ok (tf, stT) →
       step fuel st1 = .ok (nm, stE) →
       tf.sort = nm.sort →
       evalStmt (fuel + 2) (.ifStmt (some c) (some tstmt) none) st =
         .ok (.ite cf tf nm, stE)) := by
  constructor
  · intro fuel c tstmt estmt st st1 stT stE cf tf ef hc hcs ht he hs
    simp only [evalStmt, hc, ht, he, z3If, hcs, hs, if_pos]
  · intro fuel c tstmt st st1 stT stE cf tf nm hc hcs ht hstep hs
    simp only [evalStmt, z3_implies, hc, ht, hstep, z3If, hcs, hs, if_pos]

/-- Witness for C1: a conditional on `true` whose branches write 1
respectively 2 into `v` from the entry state `v = 0`; both branch
formulas are computed from the entry store, the else/fallthrough state
survives. -/
theorem c1_if_branch_isolation_witness :
    evalStmt 6 (.ifStmt (some (.lit (.term (.boolv true))))
        (some (.assign "v" (.lit (.term (.bvv 8 1)))))
        (some (.assign "v" (.lit (.term (.bvv 8 2))))))
      { vars := [("v", .term (.bvv 8 0))], expr_chain := [], registry := [] } =
      .ok (.ite (.boolv true) (.stateRepr [("v", .term (.bvv 8 1))])
        (.stateRepr [("v", .term (.bvv 8 2))]),
        { vars := [("v", .term (.bvv 8 2))], expr_chain := [], registry := [] }) ∧
    evalStmt 6 (.ifStmt (some (.lit (.term (.boolv true))))
        (some (.assign "v" (.lit (.term (.bvv 8 1))))) none)
      { vars := [("v", .term (.bvv 8 0))], expr_chain := [], registry := [] } =
      .ok (.ite (.boolv true) (.stateRepr [("v", .term (.bvv 8 1))])
        (.stateRepr [("v", .term (.bvv 8 0))]),
        { vars := [("v", .term (.bvv 8 0))], expr_chain := [], registry := [] }) :=
  ⟨c1_if_branch_isolation.1 5 _ _ _ _ _ _ _ _ _ _ rfl rfl rfl rfl rfl,
   c1_if_branch_isolation.2 4 _ _ _ _ _ _ _ _ _ rfl rfl rfl rfl rfl⟩

/-- C2 (code bug): the concrete scenario — caller binds `x = 1` and
`p = 7`, the action `act` has the single `in` parameter `p` of sort
`bit<8>` and its body assigns `p := 99`, the call is `act(x)` — shows
that after the call (P4Context restoration included) the caller variable
`x` still equals 1, but the caller's pre-call binding `p = 7` is NOT
restored: the callee's mutation `p = 99` survives in the caller's scope,
because `save_variables` buffers the argument tuples instead of the
pre-call values and the `in` branch of `P4Context.eval` re-reads the
current value of the parameter name and writes it back (a no-op). -/
theorem c2_context_in_no_restore_bug :
    evalPExpr 20 (.methodCall "act" [.ref "x"]) c2_state0 =
      .ok (.term (.stateRepr c2_vars_final), c2_state_final) ∧
    resolve_reference c2_state0 "x" = some (.term (.bvv 8 1)) ∧
    resolve_reference c2_state0 "p" = some (.term (.bvv 8 7)) ∧
    resolve_reference c2_state_final "x" = some (.term (.bvv 8 1)) ∧
    resolve_reference c2_state_final "p" = some (.term (.bvv 8 99)) :=
  ⟨rfl, rfl, rfl, rfl, rfl⟩

/-- C3: `z3_cast` on a bit-vector term of width `w` to a target width
`t ≥ 1` always yields a term of width exactly `t` (first conjunct, for
arbitrary terms); on concrete values (second conjunct), when `t ≤ w` the
result equals bits `[t-1:0]` of the value (the value modulo `2 ^ t`)
and when `t > w` the result is the zero-extension — its value equals `v`
with the high `t - w` bits zero.  No sign-extension path exists in the
definition.  Width 0 is excluded: z3 has no 0-width bit-vector sort and
the code would pass `-1` to `Extract`. -/
theorem c3_cast_width_invariants :
    (∀ (g : Formula) (w t : Nat), g.sort = .bvS w → 1 ≤ t →
       ∃ f, z3_cast (.term g) (.widthT t) = .ok f ∧ f.sort = .bvS t) ∧
    (∀ (w t v : Nat), 1 ≤ t → v < 2 ^ w →
       ∃ f, z3_cast (.term (.bvv w v)) (.widthT t) = .ok f ∧ f.sort = .bvS t ∧
         (t ≤ w → bvDenote f = some (t, v % 2 ^ t)) ∧
         (w < t → bvDenote f = some (t, v) ∧ v / 2 ^ w = 0)) := by
  constructor
  · intro g w t hg ht
    by_cases hwt : w < t
    · refine ⟨.zeroExt (t - w) g, ?_, ?_⟩
      · simp [z3_cast, hg, hwt]
      · simp only [Formula.sort, hg]
        have h2 : w + (t - w) = t := by omega
        rw [h2]
    · refine ⟨.extract (t - 1) 0 g, ?_, ?_⟩
      · simp [z3_cast, hg, hwt]
        omega
      · simp only [Formula.sort]
        have h2 : t - 1 - 0 + 1 = t := by omega
        rw [h2]
  · intro w t v ht hv
    by_cases hwt : w < t
    · refine ⟨.zeroExt (t - w) (.bvv w v), ?_, ?_, ?_, ?_⟩
      · simp [z3_cast, Formula.sort, hwt]
      · simp only [Formula.sort]
        have h2 : w + (t - w) = t := by omega
        rw [h2]
      · intro hle; exact absurd hwt (by omega)
      · intro _
        refine ⟨?_, Nat.div_eq_of_lt hv⟩
        simp only [bvDenote]
        rw [Nat.mod_eq_of_lt hv]
        have h2 : w + (t - w) = t := by omega
        rw [h2]
    · refine ⟨.extract (t - 1) 0 (.bvv w v), ?_, ?_, ?_, ?_⟩
      · simp [z3_cast, Formula.sort, hwt]
        omega
      · simp only [Formula.sort]
        have h2 : t - 1 - 0 + 1 = t := by omega
        rw [h2]
      · intro hle
        simp only [bvDenote]
        have hb : 0 ≤ t - 1 ∧ t - 1 < w := by omega
        rw [if_pos hb]
        rw [Nat.mod_eq_of_lt hv]
        have h2 : t - 1 - 0 + 1 = t := by omega
        rw [h2]
        simp [Nat.pow_zero]
      · intro hlt; exact absurd hlt hwt

/-- Witness for C3: an 8-bit symbolic variable cast to width 3, the
value 0xAB truncated from 8 to 4 bits, and the value 5 zero-extended
from 4 to 9 bits. -/
theorem c3_cast_width_invariants_witness :
    (∃ f, z3_cast (.term (.var "x" (.bvS 8))) (.widthT 3) = .ok f ∧ f.sort = .bvS 3) ∧
    (∃ f, z3_cast (.term (.bvv 8 0xAB)) (.widthT 4) = .ok f ∧ f.sort = .bvS 4 ∧
       (4 ≤ 8 → bvDenote f = some (4, 0xAB % 2 ^ 4)) ∧
       (8 < 4 → bvDenote f = some (4, 0xAB) ∧ 0xAB / 2 ^ 8 = 0)) ∧
    (∃ f, z3_cast (.term (.bvv 4 5)) (.widthT 9) = .ok f ∧ f.sort = .bvS 9 ∧
       (9 ≤ 4 → bvDenote f = some (9, 5 % 2 ^ 9)) ∧
       (4 < 9 → bvDenote f = some (9, 5) ∧ 5 / 2 ^ 4 = 0)) :=
  ⟨c3_cast_width_invariants.1 (.var "x" (.bvS 8)) 8 3 rfl (by decide),
   c3_cast_width_invariants.2 8 4 0xAB (by decide) (by decide),
   c3_cast_width_invariants.2 4 9 5 (by decide) (by decide)⟩

/-- C4 counterexample: with the 8-bit container 0xFF and the 4-bit
replacement 5, `slice_assign(c, r, 7, 0)` spans the full width and
returns `r` itself — a term of width 4 — whereas `r` cast to `width(c)`
is the 8-bit zero-extension; the widths differ, so the full-span result
is NOT `r` cast to `width(c)` bits. -/
theorem c4_full_span_cex :
    slice_assign (.term (.bvv 8 255)) (.term (.bvv 4 5)) 7 0 = .ok (.term (.bvv 4 5)) ∧
    Formula.sort (.bvv 4 5) = .bvS 4 ∧
    z3_cast (.term (.bvv 4 5)) (.widthT 8) = .ok (.zeroExt 4 (.bvv 4 5)) ∧
    Formula.sort (.zeroExt 4 (.bvv 4 5)) = .bvS 8 ∧
    ZSort.bvS 4 ≠ ZSort.bvS 8 :=
  ⟨rfl, rfl, rfl, rfl, by decide⟩

/-- C4 (amended): `slice_assign(c, r, width(c)-1, 0)` returns `r`
UNCHANGED regardless of the container's prior content (first conjunct);
this coincides, semantically, with `r` cast to `width(c)` when `r`
already has width `width(c)` (second conjunct: the cast of a width-`w`
value to width `w` denotes the same value), but not otherwise, as the
counterexample shows.  Every narrower slice (third conjunct) is rebuilt
as the concatenation of the untouched high segment when `high` is below
the top bit, the replacement cast to exactly `high - low + 1` bits, and
the untouched low segment when `low > 0`. -/
theorem c4_slice_assign_amended :
    (∀ (lf : Formula) (rv : Val) (w : Nat), lf.sort = .bvS w →
       slice_assign (.term lf) rv (w - 1) 0 = .ok rv) ∧
    (∀ (w u : Nat), 1 ≤ w → u < 2 ^ w →
       ∃ g, z3_cast (.term (.bvv w u)) (.widthT w) = .ok g ∧
         bvDenote g = bvDenote (.bvv w u)) ∧
    (∀ (lf : Formula) (rv : Val) (rc : Formula) (w h l : Nat),
       lf.sort = .bvS w → l ≤ h → h < w → ¬(h = w - 1 ∧ l = 0) →
       z3_cast rv (.widthT (h + 1 - l)) = .ok rc →
       slice_assign (.term lf) rv h l = .ok (.term
         (if h < w - 1 then
            (if 0 < l then
               .concat (.concat (.extract (w - 1) (h + 1) lf) rc) (.extract (l - 1) 0 lf)
             else .concat (.extract (w - 1) (h + 1) lf) rc)
          else .concat rc (.extract (l - 1) 0 lf)))) := by
  refine ⟨?_, ?_, ?_⟩
  · intro lf rv w hg
    simp [slice_assign, hg]
  · intro w u hw hu
    refine ⟨.extract (w - 1) 0 (.bvv w u), ?_, ?_⟩
    · have h0 : ¬ w = 0 := by omega
      simp [z3_cast, Formula.sort, h0]
    · have hb : 0 ≤ w - 1 ∧ w - 1 < w := by omega
      have h2 : w - 1 - 0 + 1 = w := by omega
      simp only [bvDenote, if_pos hb, h2, pow_zero, Nat.div_one, Nat.mod_eq_of_lt hu]
  · intro lf rv rc w h l hg hlh hhw hnot hcast
    simp only [slice_assign, hg]
    rw [if_neg hnot, hcast]
    by_cases h1 : h < w - 1
    · by_cases h2 : 0 < l
      · simp [h1, h2, z3Concat, concatFold]
      · simp [h1, h2, z3Concat, concatFold]
    · have hl : 0 < l := by omega
      simp [h1, hl, z3Concat, concatFold]

/-- Witness for C4 (amended): full-span assignment of a Python int
replacement returns it unchanged; the width-8 identity cast preserves
the denotation; and the spec's own narrow-slice scenario
`slice_assign(0xFF, 0x0, 7, 4)` rebuilds by concatenation (its
denotation is the expected 0x0F). -/
theorem c4_slice_assign_amended_witness :
    slice_assign (.term (.bvv 8 255)) (.pyint 3) 7 0 = .ok (.pyint 3) ∧
    (∃ g, z3_cast (.term (.bvv 8 1)) (.widthT 8) = .ok g ∧ bvDenote g = bvDenote (.bvv 8 1)) ∧
    slice_assign (.term (.bvv 8 255)) (.term (.bvv 4 0)) 7 4 =
      .ok (.term (.concat (.extract 3 0 (.bvv 4 0)) (.extract 3 0 (.bvv 8 255)))) :=
  ⟨c4_slice_assign_amended.1 (.bvv 8 255) (.pyint 3) 8 rfl,
   c4_slice_assign_amended.2.1 8 1 (by decide) (by decide),
   c4_slice_assign_amended.2.2 (.bvv 8 255) (.term (.bvv 4 0)) (.extract 3 0 (.bvv 4 0))
     8 7 4 rfl (by decide) (by decide) (by decide) rfl⟩

/-- C5 (code bug): casting boolean true to an 8-bit target does yield
the 8-bit value 1 (first two conjuncts), but casting that 8-bit result
back to boolean raises a z3 sort mismatch — the code compares the 8-bit
value against the 1-bit constant `BitVecVal(1, 1)` — instead of yielding
true (third conjunct).  The comparison-against-1-bit-true rule only
round-trips at width 1, as the last two conjuncts show. -/
theorem c5_bool_cast_roundtrip_bug :
    z3_cast (.term (.boolv true)) (.widthT 8) =
      .ok (.zeroExt 7 (.ite (.boolv true) (.bvv 1 1) (.bvv 1 0))) ∧
    bvDenote (.zeroExt 7 (.ite (.boolv true) (.bvv 1 1) (.bvv 1 0))) = some (8, 1) ∧
    z3_cast (.term (.zeroExt 7 (.ite (.boolv true) (.bvv 1 1) (.bvv 1 0)))) .boolT =
      .error "sort mismatch" ∧
    z3_cast (.term (.ite (.boolv true) (.bvv 1 1) (.bvv 1 0))) .boolT =
      .ok (.eqf (.ite (.boolv true) (.bvv 1 1) (.bvv 1 0)) (.bvv 1 1)) ∧
    boolDenote (.eqf (.ite (.boolv true) (.bvv 1 1) (.bvv 1 0)) (.bvv 1 1)) = some true :=
  ⟨rfl, rfl, rfl, rfl, rfl⟩

/-- C6 counterexample: a table constructed without a default action has
`default_action = None`, yet evaluating its default path reassigns the
node's own `default_action` field to the synthesized NoAction tuple —
and `P4Callable.eval` increments the node's call counter on every
invocation — so node fields are NOT left unchanged by evaluation. -/
theorem c6_node_mutation_cex :
    (eval_default_self c6_table0).1.default_action = some (0, "NoAction", []) ∧
    c6_table0.default_action = none ∧
    (eval_default_self c6_table0).1.default_action ≠ c6_table0.default_action ∧
    (bump_call_counter { params := [], block := [], call_counter := 0 }).call_counter = 1 ∧
    ({ params := [], block := [], call_counter := 0 } : ActionDef).call_counter = 0 := by
  refine ⟨rfl, rfl, ?_, rfl, rfl⟩
  simp [c6_table0, mkP4Table, eval_default_self]

/-- Per-case effect of the `eval_switch_matches` loop: case names,
blocks and selector variables are preserved; only the match slot is
filled with `match_var == declared action id`. -/
theorem eval_switch_matches_list_forall
    (actions : List (String × (Nat × String × List PExpr))) :
    ∀ (cs cs2 : List (String × SwitchCase)),
      eval_switch_matches_list actions cs = .ok cs2 →
      List.Forall₂ (fun (a b : String × SwitchCase) =>
        b.1 = a.1 ∧ b.2.case_block = a.2.case_block ∧ b.2.match_var = a.2.match_var ∧
        ∃ idx nm args, lookupVarList actions a.1 = some (idx, nm, args) ∧
          b.2.match_cond = some (.eqf a.2.match_var (.intv (Int.ofNat idx)))) cs cs2 := by
  intro cs
  induction cs with
  | nil =>
      intro cs2 h
      simp only [eval_switch_matches_list] at h
      cases h
      exact List.Forall₂.nil
  | cons hd tl ih =>
      intro cs2 h
      obtain ⟨case_name, case0⟩ := hd
      simp only [eval_switch_matches_list] at h
      rcases hl : lookupVarList actions case_name with _ | ⟨idx, nm, args⟩
      · rw [hl] at h; cases h
      · rw [hl] at h
        cases hrest : eval_switch_matches_list actions tl with
        | error e => rw [hrest] at h; cases h
        | ok cs3 =>
            rw [hrest] at h
            cases h
            exact List.Forall₂.cons ⟨rfl, rfl, rfl, idx, nm, args, hl, rfl⟩ (ih cs3 hrest)

/-- C6 (amended): nodes hold references to sub-nodes and literal
parameters only, never to state, but evaluation mutates node-local
bookkeeping: `P4Table.eval_default` fills an absent default action with
the synthesized `(0, NoAction)` tuple and otherwise leaves the node
untouched (first conjunct — only the `default_action` field can change,
and only from `None`); `P4Callable.eval` increments the diagnostic call
counter, leaving parameters and body unchanged (second conjunct); and
`SwitchHit.eval_switch_matches` fills each case's match formula, leaving
case names, blocks, selector variables and the default case unchanged
(third conjunct). -/
theorem c6_node_self_mutation_amended :
    (∀ t : P4Table, eval_default_self t =
       ({ t with default_action := some (t.default_action.getD (0, "NoAction", [])) },
        ((t.default_action.getD (0, "NoAction", [])).2.1,
         (t.default_action.getD (0, "NoAction", [])).2.2))) ∧
    (∀ a : ActionDef,
       (bump_call_counter a).params = a.params ∧
       (bump_call_counter a).block = a.block ∧
       (bump_call_counter a).call_counter = a.call_counter + 1) ∧
    (∀ (sh sh2 : SwitchHitNode) (tbl : P4Table),
       eval_switch_matches sh tbl = .ok sh2 →
       sh2.default_case = sh.default_case ∧
       List.Forall₂ (fun (a b : String × SwitchCase) =>
         b.1 = a.1 ∧ b.2.case_block = a.2.case_block ∧ b.2.match_var = a.2.match_var ∧
         ∃ idx nm args, lookupVarList tbl.actions a.1 = some (idx, nm, args) ∧
           b.2.match_cond = some (.eqf a.2.match_var (.intv (Int.ofNat idx))))
         sh.cases sh2.cases) := by
  refine ⟨?_, ?_, ?_⟩
  · intro t
    rcases h : t.default_action with _ | ⟨d1, d2, d3⟩
    · simp [eval_default_self, h]
    · simp [eval_default_self, h]
      rw [← h]
  · intro a
    exact ⟨rfl, rfl, rfl⟩
  · intro sh sh2 tbl h
    simp only [eval_switch_matches] at h
    cases hl : eval_switch_matches_list tbl.actions sh.cases with
    | error e => rw [hl] at h; cases h
    | ok cs =>
        rw [hl] at h
        cases h
        exact ⟨rfl, eval_switch_matches_list_forall _ _ _ hl⟩

/-- Witness for C6 (amended): the default path of the one-action table
installs the NoAction default, and `eval_switch_matches` on its switch
node fills the match slot with `t_action == 1` while preserving
everything else. -/
theorem c6_node_self_mutation_amended_witness :
    eval_default_self c6_table1 = (add_default c6_table1 (.nameE "NoAction"), ("NoAction", [])) ∧
    (c6_sh1.default_case = c6_sh0.default_case ∧
       List.Forall₂ (fun (a b : String × SwitchCase) =>
         b.1 = a.1 ∧ b.2.case_block = a.2.case_block ∧ b.2.match_var = a.2.match_var ∧
         ∃ idx nm args, lookupVarList c6_table1.actions a.1 = some (idx, nm, args) ∧
           b.2.match_cond = some (.eqf a.2.match_var (.intv (Int.ofNat idx))))
         c6_sh0.cases c6_sh1.cases) :=
  ⟨c6_node_self_mutation_amended.1 c6_table1,
   c6_node_self_mutation_amended.2.2 c6_sh0 c6_sh1 c6_table1 rfl⟩

/-- C7: when the left operand of `P4land` resolves to the structural
false constant, evaluation returns the constant false immediately,
paired with the state as it stood after resolving the left operand,
for EVERY right operand — so the right operand is never evaluated and
can leave no observable side effect on the state; `P4lor` mirrors this
for the structural true constant (a Python int left operand compares
equal to False/True when it is 0/1, which the guards reproduce). -/
theorem c7_short_circuit :
    (∀ (fuel : Nat) (l r : PExpr) (st st1 : P4State) (lv : Val),
       resolveExpr fuel st l = .ok (lv, st1) →
       isStructFalse lv = true →
       evalPExpr (fuel + 1) (.land l r) st = .ok (.term (.boolv false), st1)) ∧
    (∀ (fuel : Nat) (l r : PExpr) (st st1 : P4State) (lv : Val),
       resolveExpr fuel st l = .ok (lv, st1) →
       isStructTrue lv = true →
       evalPExpr (fuel + 1) (.lor l r) st = .ok (.term (.boolv true), st1)) := by
  constructor
  · intro fuel l r st st1 lv h1 h2
    simp only [evalPExpr, h1, h2, if_pos]
  · intro fuel l r st st1 lv h1 h2
    simp only [evalPExpr, h1, h2, if_pos]

/-- Witness for C7: the right operand is a method call on an
unregistered callee, whose evaluation would fail — yet the AND with a
false left operand (and the OR with the Python int 1 on the left)
returns the constant without touching it. -/
theorem c7_short_circuit_witness :
    evalPExpr 6 (.land (.lit (.term (.boolv false))) (.methodCall "boom" []))
      { vars := [], expr_chain := [], registry := [] } =
      .ok (.term (.boolv false), { vars := [], expr_chain := [], registry := [] }) ∧
    evalPExpr 6 (.lor (.lit (.pyint 1)) (.methodCall "boom" []))
      { vars := [], expr_chain := [], registry := [] } =
      .ok (.term (.boolv true), { vars := [], expr_chain := [], registry := [] }) :=
  ⟨c7_short_circuit.1 5 _ _ _ _ _ rfl rfl,
   c7_short_circuit.2 5 _ _ _ _ _ rfl rfl⟩

/-- C8 (code bug): `resolve_expr` does resolve a list element-wise into
a new list (first conjunct), but its dict branch initializes the
accumulator as a LIST (`dict_expr = []`) and then assigns into it with
a string key, raising a TypeError on any non-empty dict (second
conjunct) and returning an empty LIST, not a mapping, for an empty dict
(third conjunct) — mappings are never resolved into a new mapping. -/
theorem c8_resolve_container_bug :
    resolveVal 10 (.listV [.pyint 3, .term (.bvv 8 1), .listV [.pyint 0]]) =
      .ok (.listV [.pyint 3, .term (.bvv 8 1), .listV [.pyint 0]]) ∧
    resolveVal 5 (.dictV [("f", .pyint 1)]) =
      .error "TypeError: list indices must be integers" ∧
    resolveVal 5 (.dictV []) = .ok (.listV []) :=
  ⟨rfl, rfl, rfl⟩

/-- C9: `P4Table.add_const_entry` fails exactly when the entry's
key-tuple length differs from the table's declared key-list length (the
iff and the error conjuncts); when the lengths agree the resolved entry
is appended at the end and every other field of the table — prior
entries, keys, actions, default — is unchanged (the final conjunct's
record update touches `const_entries` only). -/
theorem c9_add_const_entry_length_check :
    ∀ (t : P4Table) (const_keys : List PExpr) (action_expr : ActionExpr),
      ((∃ t2, add_const_entry t const_keys action_expr = .ok t2) ↔
         t.keys.length = const_keys.length) ∧
      (t.keys.length ≠ const_keys.length →
         add_const_entry t const_keys action_expr =
           .error "Constant keys must match table keys!") ∧
      (t.keys.length = const_keys.length →
         add_const_entry t const_keys action_expr =
           .ok { t with const_entries :=
                   t.const_entries ++ [(const_keys, resolve_action action_expr)] }) := by
  intro t ks a
  by_cases h : t.keys.length = ks.length
  · have hne : ¬ t.keys.length ≠ ks.length := not_not_intro h
    refine ⟨⟨fun _ => h, fun _ => ?_⟩, fun hc => absurd h hc, fun _ => ?_⟩
    · exact ⟨{ t with const_entries :=
               t.const_entries ++ [(ks, resolve_action a)] }, by simp [add_const_entry, hne]⟩
    · simp [add_const_entry, hne]
  · refine ⟨⟨?_, fun heq => absurd heq h⟩, fun _ => ?_, fun heq => absurd heq h⟩
    · rintro ⟨t2, ht⟩
      simp [add_const_entry, h] at ht
    · simp [add_const_entry, h]

/-- Witness for C9: a one-key table rejects a two-key constant entry and
accepts a one-key entry, appending it. -/
theorem c9_add_const_entry_length_check_witness :
    add_const_entry (add_match (mkP4Table "t") (.ref "k"))
        [.lit (.pyint 5), .lit (.pyint 6)] (.nameE "A") =
      .error "Constant keys must match table keys!" ∧
    add_const_entry (add_match (mkP4Table "t") (.ref "k")) [.lit (.pyint 5)] (.nameE "A") =
      .ok { add_match (mkP4Table "t") (.ref "k") with
            const_entries := [([.lit (.pyint 5)], ("A", []))] } :=
  ⟨(c9_add_const_entry_length_check (add_match (mkP4Table "t") (.ref "k"))
      [.lit (.pyint 5), .lit (.pyint 6)] (.nameE "A")).2.1 (by decide),
   (c9_add_const_entry_length_check (add_match (mkP4Table "t") (.ref "k"))
      [.lit (.pyint 5)] (.nameE "A")).2.2 rfl⟩

/-- C10: an integer container operand of `slice_assign`, and an integer
resolved operand of `P4Slice.eval`, are first materialized as the 64-bit
constant `BitVecVal(i, 64)`, for every integer value and all slice
bounds, so slicing an integer-valued operand behaves exactly as slicing
its 64-bit representation (the first two conjuncts are term-level
equalities of the two calls; the remaining conjuncts evaluate the 64-bit
slice `300[7:0] = 44` and a 64-bit slice assignment). -/
theorem c10_int_operand_as_64bit :
    (∀ (i : Int) (rv : Val) (h l : Nat),
       slice_assign (.pyint i) rv h l = slice_assign (.term (BitVecVal i 64)) rv h l) ∧
    (∀ (i : Int) (h l : Nat),
       p4Slice_eval_val (.pyint i) h l = p4Slice_eval_val (.term (BitVecVal i 64)) h l) ∧
    p4Slice_eval_val (.pyint 300) 7 0 = .ok (.extract 7 0 (.bvv 64 300)) ∧
    bvDenote (.extract 7 0 (.bvv 64 300)) = some (8, 44) ∧
    slice_assign (.pyint 300) (.term (.bvv 8 0)) 7 0 =
      .ok (.term (.concat (.extract 63 8 (.bvv 64 300)) (.extract 7 0 (.bvv 8 0)))) :=
  ⟨fun _ _ _ _ => rfl, fun _ _ _ => rfl, rfl, by decide, rfl⟩

end P4Z3
